import Mathlib

/-!
Verification of the Autotask ticketing system's assignment, workload,
ticket-numbering and frontend service logic, as a shallow embedding in Lean.

The assignment/workload/intake agents are documented in
src/WORKLOAD_MANAGEMENT_REFACTOR.md and the intake-agent refactor notes;
their Python sources (src/agents/assignment_agent.py, intake_agent.py) are
not part of the source tree, so those components are modelled from the
specification.  The frontend files (UrgentTickets.jsx, the ApiService layer)
are present and embedded directly.
-/

namespace Autotask

/-! ### Candidate ranking (CandidateRanker / select_best_candidate) -/

/-- Modelled from the spec: one (technician, skill-match%, availability,
workload) tuple handed to the CandidateRanker, as described in spec §4.2;
src/agents/assignment_agent.py is not in the source tree, the behaviour is
documented in src/WORKLOAD_MANAGEMENT_REFACTOR.md. -/
structure Candidate where
  techId : String
  skillMatch : Nat
  available : Bool
  workload : Nat
deriving Repr, DecidableEq

/-- Modelled from the spec: the six-tier hierarchy of spec §4.2.  Tiers 1-3
are available technicians split at 70% and 60% skill match, tiers 4-5 are
unavailable technicians split at 70%; tier 6 is the universal fallback and
is never the tier of an actual candidate. -/
def tierOf (c : Candidate) : Nat :=
  if c.available then
    if 70 ≤ c.skillMatch then 1
    else if 60 ≤ c.skillMatch then 2
    else 3
  else
    if 70 ≤ c.skillMatch then 4
    else 5

/-- Modelled from the spec: the comparator of spec §4.2 — priority tier
first, then current workload ascending, then skill-match percentage
descending.  Returns true when c is strictly better than d. -/
def ranksBefore (c d : Candidate) : Bool :=
  if tierOf c < tierOf d then true
  else if tierOf d < tierOf c then false
  else if c.workload < d.workload then true
  else if d.workload < c.workload then false
  else decide (d.skillMatch < c.skillMatch)

/-- Modelled from the spec: pick the best candidate of the list, ties after
both sort keys broken by stable input order (the earlier element wins),
per spec §4.2.  Returns none exactly on the empty candidate list. -/
def selectBest : List Candidate → Option Candidate
  | [] => none
  | c :: cs =>
    match selectBest cs with
    | none => some c
    | some b => if ranksBefore b c then some b else some c

/-- Modelled from the spec: the AssignmentDecision record of spec §3 —
ticket id, chosen technician id, the tier of the match, the skill-match
percentage. -/
structure AssignmentDecision where
  ticketId : String
  technicianId : String
  tier : Nat
  skillMatch : Nat
deriving Repr, DecidableEq

/-- Modelled from the spec: AssignmentCoordinator.assign of spec §4.4 —
rank all candidates, take the first; when no candidate exists at all the
decision is the configured tier-6 fallback technician/queue. -/
def assign (fallbackId ticketId : String) (l : List Candidate) :
    AssignmentDecision :=
  match selectBest l with
  | some w => ⟨ticketId, w.techId, tierOf w, w.skillMatch⟩
  | none => ⟨ticketId, fallbackId, 6, 0⟩

/-! ### WorkloadTracker (update_technician_workload / handle_ticket_completion) -/

/-- Modelled from the spec: a single WorkloadTracker operation of spec §4.3
— increment on assignment, decrement on completion.
src/agents/assignment_agent.py is not in the source tree; the behaviour is
documented in src/WORKLOAD_MANAGEMENT_REFACTOR.md (decrement clamps at 0
via the SQL GREATEST function). -/
inductive WorkloadOp where
  | increment (technicianId : String)
  | decrement (technicianId : String)
deriving Repr, DecidableEq

/-- Modelled from the spec: apply one operation to the workload table
(CURRENT_WORKLOAD is a database integer, keyed by technician id).
increment adds 1; decrement subtracts 1 clamped at a floor of 0. -/
def applyWorkloadOp (w : String → Int) : WorkloadOp → (String → Int)
  | .increment id => fun t => if t = id then w t + 1 else w t
  | .decrement id => fun t => if t = id then max 0 (w t - 1) else w t

/-- Modelled from the spec: apply a sequence of WorkloadTracker operations
in order. -/
def applyWorkloadOps (w : String → Int) (ops : List WorkloadOp) :
    String → Int :=
  ops.foldl applyWorkloadOp w

/-! ### TicketStore and refreshAll (refresh_all_technician_workloads) -/

/-- A stored ticket row as described by the TICKETS schema of
src/WORKLOAD_MANAGEMENT_REFACTOR.md: ticket number, assigned technician
email, and a nullable status string. -/
structure TicketRow where
  ticketNumber : String
  technicianEmail : Option String
  status : Option String
deriving Repr, DecidableEq

/-- Modelled from the spec: a ticket counts as currently open unless its
status is Closed, Resolved or Cancelled (refresh_all_technician_workloads
filters those out; a NULL status is open). -/
def isOpenTicket (t : TicketRow) : Bool :=
  !(t.status = some "Closed" || t.status = some "Resolved" ||
    t.status = some "Cancelled")

/-- The technician table: id paired with the stored CURRENT_WORKLOAD. -/
structure TechRow where
  email : String
  currentWorkload : Int
deriving Repr, DecidableEq

/-- The store state refreshAll operates on: the TECHNICIAN_DUMMY_DATA rows
and the TICKETS rows. -/
structure StoreState where
  technicians : List TechRow
  tickets : List TicketRow
deriving Repr, DecidableEq

/-- Modelled from the spec: count a technician's currently-open tickets
directly from the ticket store. -/
def countOpenTickets (tickets : List TicketRow) (email : String) : Int :=
  ((tickets.filter
    (fun t => t.technicianEmail = some email && isOpenTicket t)).length : Int)

/-- Modelled from the spec: refresh_all_technician_workloads — recompute
every technician's workload by counting their currently-open tickets and
overwrite the stored counter; the ticket rows themselves are untouched. -/
def refreshAll (s : StoreState) : StoreState :=
  { s with technicians := (s.technicians.map
      (fun tr => ⟨tr.email, countOpenTickets s.tickets tr.email⟩)) }

/-! ### SkillMatcher -/

/-- Modelled from the spec: SkillMatcher of spec §4.1 — exact-keyword
overlap count over the union size, scaled to a percentage; an empty
required-skill set yields the neutral default 50 rather than 0.  A pure
total function with no error conditions. -/
def computeSkillMatch (required declared : Finset String) : Nat :=
  if required = ∅ then 50
  else 100 * (required ∩ declared).card / (required ∪ declared).card

/-! ### AssignmentCoordinator failure semantics -/

/-- Modelled from the spec: the hard-failure taxonomy of spec §7 — the
data-unavailable error raised when TechnicianDirectory cannot be
reached. -/
inductive AssignError where
  | dataUnavailable
deriving Repr, DecidableEq

/-- Modelled from the spec: data-unavailable errors are propagated to the
caller as retryable hard failures. -/
def AssignError.retryable : AssignError → Bool
  | .dataUnavailable => true

/-- Modelled from the spec: record the assignment on the matching ticket
row — set the assigned technician and move the status to Assigned. -/
def setAssigned (tid techEmail : String) (t : TicketRow) : TicketRow :=
  if t.ticketNumber = tid then
    { t with technicianEmail := some techEmail, status := some "Assigned" }
  else t

/-- Modelled from the spec: WorkloadTracker.increment applied to the
technician table after a successful assignment. -/
def bumpWorkload (techEmail : String) (tr : TechRow) : TechRow :=
  if tr.email = techEmail then
    { tr with currentWorkload := tr.currentWorkload + 1 }
  else tr

/-- Modelled from the spec: process_ticket_assignment of spec §4.4.  The
directory argument is the snapshot fetched from TechnicianDirectory; none
models an unreachable directory.  On failure the operation returns the
retryable error and the store untouched; on success it records the
decision, marks the ticket Assigned and increments the winner's
workload. -/
def processTicketAssignment (directory : Option (List Candidate))
    (fallbackId tid : String) (s : StoreState) :
    Except AssignError AssignmentDecision × StoreState :=
  match directory with
  | none => (.error .dataUnavailable, s)
  | some l =>
    let d := assign fallbackId tid l
    (.ok d,
      { s with
          tickets := (s.tickets.map (setAssigned tid d.technicianId)),
          technicians := (s.technicians.map (bumpWorkload d.technicianId)) })

/-! ### Ticket number generation (intake agent) -/

/-- The character of one decimal digit, as in the TKT-NNNNNN rendering. -/
def digitChar (d : Nat) : Char := Char.ofNat (48 + d)

/-- The numeric value of one decimal digit character. -/
def charDigit (c : Char) : Nat := c.toNat - 48

/-- Big-endian decimal digit characters of a number (empty for 0). -/
def natChars (n : Nat) : List Char :=
  ((Nat.digits 10 n).map digitChar).reverse

/-- Modelled from the spec: the TKT-NNNNNN ticket number format of the
intake-agent refactor (src/agents/intake_agent.py is not in the source
tree; the behaviour is documented in the refactor notes): the sequence
number zero-padded to six digits behind the TKT- marker. -/
def formatTKT (n : Nat) : String :=
  ⟨'T' :: 'K' :: 'T' :: '-' ::
    (List.replicate (6 - (natChars n).length) '0' ++ natChars n)⟩

/-- Modelled from the spec: the SQL CAST(... AS INTEGER) of the extraction
query — the numeric value of a non-empty all-digit character run, with the
documented fallback to 0 on anything else. -/
def castDigits (l : List Char) : Nat :=
  if l ≠ [] ∧ l.all Char.isDigit then
    l.foldl (fun a c => 10 * a + charDigit c) 0
  else 0

/-- Modelled from the spec: the CASE expression of
get_highest_ticket_number_from_db — a TKT-NNNNNN number contributes its
six-digit suffix, an old-format TYYYYMMDD.NNNN number contributes the date
part concatenated with the sequence part, anything else contributes 0. -/
def extractTicketNum (s : String) : Nat :=
  match s.data with
  | 'T' :: 'K' :: 'T' :: '-' :: rest => castDigits rest
  | 'T' :: rest =>
    if rest.contains '.' then
      castDigits (rest.take 8 ++ (rest.drop 9).take 4)
    else 0
  | _ => 0

/-- The ticket-number store the intake agent queries: the active TICKETS
table and the CLOSED_TICKETS table. -/
structure TicketDB where
  tickets : List String
  closedTickets : List String
deriving Repr, DecidableEq

/-- All ticket numbers the uniqueness check ranges over (UNION ALL of the
two tables). -/
def allTicketNumbers (db : TicketDB) : List String :=
  db.tickets ++ db.closedTickets

/-- Modelled from the spec: get_highest_ticket_number_from_db — the
maximum extracted numeric value across both tables, 0 when no tickets
exist. -/
def highestTicketNumber (db : TicketDB) : Nat :=
  (allTicketNumbers db).foldl (fun a s => max a (extractTicketNum s)) 0

/-- Modelled from the spec: generate_ticket_number — find the highest
ticket number across all tickets, increment by 1, render as TKT-NNNNNN. -/
def generate_ticket_number (db : TicketDB) : String :=
  formatTKT (highestTicketNumber db + 1)

/-- Issuing a ticket records its number in the active TICKETS table;
existing rows are untouched. -/
def insertTicket (db : TicketDB) (tn : String) : TicketDB :=
  { db with tickets := tn :: db.tickets }

/-! ### Frontend: technician availability derivation (UrgentTickets.jsx) -/

/-- The leading decimal-digit run of a character list, or none when the
first character is not a digit (the NaN case of parseInt). -/
def parseLeadingDigits (l : List Char) : Option Nat :=
  match l.takeWhile Char.isDigit with
  | [] => none
  | ds => some (ds.foldl (fun a c => 10 * a + charDigit c) 0)

/-- JavaScript parseInt on a string, radix 10: skip leading spaces, accept
an optional sign, then read the leading digit run; NaN (none) when no
digit follows. -/
def jsParseInt (s : String) : Option Int :=
  match s.data.dropWhile (fun c => c = ' ') with
  | '-' :: rest => (parseLeadingDigits rest).map (fun n => -(n : Int))
  | '+' :: rest => (parseLeadingDigits rest).map (fun n => (n : Int))
  | rest => (parseLeadingDigits rest).map (fun n => (n : Int))

/-- loadTechnicians of UrgentTickets.jsx line 52: parseInt of the
current_workload field with || 0, which collapses both NaN and a parsed 0
to 0. -/
def parsedWorkload (cw : String) : Int :=
  match jsParseInt cw with
  | none => 0
  | some v => v

/-- loadTechnicians of UrgentTickets.jsx line 60: the derived status is
available exactly on workload strictly below 5, else busy. -/
def deriveTechStatus (cw : String) : String :=
  if parsedWorkload cw < 5 then "available" else "busy"

/-- UrgentTickets.jsx line 421: the per-technician Assign button is
disabled exactly when tech.status is not the string available. -/
def assignDisabled (status : String) : Bool :=
  status != "available"

/-! ### Frontend: ApiService request error handling (services/api.js) -/

/-- The custom ApiError of the API service layer: a message and an HTTP
status, status 0 standing for network-level failures. -/
structure ApiError where
  message : String
  status : Nat
deriving Repr, DecidableEq

/-- ApiError.isNetworkError of the API service layer. -/
def ApiError.isNetworkError (e : ApiError) : Bool :=
  e.status == 0 || e.status == 408

/-- One fetch outcome as observed by the try/catch of ApiService.request:
the request aborts on timeout (AbortError), resolves with an HTTP response
carrying ok/status/statusText, an optional error detail from the body and
the body text, or fails with some other exception. -/
inductive FetchOutcome where
  | abortError
  | response (ok : Bool) (status : Nat) (statusText : String)
      (detail : Option String) (body : String)
  | otherFailure (message : String)
deriving Repr, DecidableEq

/-- The JavaScript a || b idiom on an optional string: the fallback is
used when the value is absent or empty (both falsy). -/
def jsOrElse (a : Option String) (b : String) : String :=
  match a with
  | some d => if d = "" then b else d
  | none => b

/-- ApiService.request: a non-ok response raises an ApiError carrying the
response status and the error detail (or the HTTP fallback text); in the
catch an AbortError becomes the 408 Request-timeout ApiError, an ApiError
is rethrown unchanged, and any other failure becomes an ApiError with
status 0. -/
def request (o : FetchOutcome) : Except ApiError String :=
  match o with
  | .abortError => .error ⟨"Request timeout", 408⟩
  | .response ok status statusText detail body =>
    if ok then .ok body
    else .error
      ⟨jsOrElse detail ("HTTP " ++ toString status ++ ": " ++ statusText),
        status⟩
  | .otherFailure msg => .error ⟨msg, 0⟩

/-! ### Facts about the comparator and the selection -/

theorem ranksBefore_irrefl (c : Candidate) : ranksBefore c c = false := by
  simp [ranksBefore]

theorem ranksBefore_asymm {c d : Candidate} (h : ranksBefore c d = true) :
    ranksBefore d c = false := by
  unfold ranksBefore at h ⊢
  split at h <;> split <;> simp_all <;> omega

theorem ranksBefore_neg_trans {a b c : Candidate}
    (hab : ranksBefore a b = false) (hbc : ranksBefore b c = false) :
    ranksBefore a c = false := by
  unfold ranksBefore at hab hbc ⊢
  split at hab <;> split at hbc <;> split <;> simp_all <;> omega

theorem selectBest_mem : ∀ {l : List Candidate} {w : Candidate},
    selectBest l = some w → w ∈ l := by
  intro l
  induction l with
  | nil => intro w h; simp [selectBest] at h
  | cons c cs ih =>
    intro w h
    simp only [selectBest] at h
    cases hcs : selectBest cs with
    | none => rw [hcs] at h; simp at h; simp [h]
    | some b =>
      rw [hcs] at h
      by_cases hb : ranksBefore b c = true
      · simp [hb] at h; subst h
        exact List.mem_cons_of_mem _ (ih hcs)
      · simp [hb] at h; simp [h]

theorem selectBest_eq_none : ∀ {l : List Candidate},
    selectBest l = none → l = [] := by
  intro l h
  cases l with
  | nil => rfl
  | cons c cs =>
    simp only [selectBest] at h
    cases hcs : selectBest cs <;> rw [hcs] at h <;> simp at h
    split at h <;> simp_all

theorem selectBest_min : ∀ {l : List Candidate} {w : Candidate},
    selectBest l = some w → ∀ c ∈ l, ranksBefore c w = false := by
  intro l
  induction l with
  | nil => intro w h; simp [selectBest] at h
  | cons c cs ih =>
    intro w h x hx
    simp only [selectBest] at h
    cases hcs : selectBest cs with
    | none =>
      rw [hcs] at h; simp at h; subst h
      rcases List.mem_cons.mp hx with hxc | hxcs
      · subst hxc; exact ranksBefore_irrefl _
      · exact absurd (selectBest_eq_none hcs ▸ hxcs) (List.not_mem_nil _)
    | some b =>
      rw [hcs] at h
      by_cases hb : ranksBefore b c = true
      · simp [hb] at h; subst h
        rcases List.mem_cons.mp hx with hxc | hxcs
        · subst hxc; exact ranksBefore_asymm hb
        · exact ih hcs _ hxcs
      · simp [hb] at h; subst h
        rcases List.mem_cons.mp hx with hxc | hxcs
        · subst hxc; exact ranksBefore_irrefl _
        · exact ranksBefore_neg_trans (ih hcs _ hxcs)
            (Bool.not_eq_true _ ▸ hb)

theorem tierOf_le_of_not_ranksBefore {c w : Candidate}
    (h : ranksBefore c w = false) : tierOf w ≤ tierOf c := by
  unfold ranksBefore at h
  split at h <;> simp_all

theorem tierOf_ge_one (c : Candidate) : 1 ≤ tierOf c := by
  unfold tierOf; split <;> split <;> try split
  all_goals omega

theorem tierOf_le_five (c : Candidate) : tierOf c ≤ 5 := by
  unfold tierOf; split <;> split <;> try split
  all_goals omega

theorem tierOf_eq_one_iff (c : Candidate) :
    tierOf c = 1 ↔ (c.available = true ∧ 70 ≤ c.skillMatch) := by
  unfold tierOf
  rcases c with ⟨i, m, a, w⟩
  cases a <;> simp <;> split <;> try split
  all_goals simp_all

theorem tierOf_congr {c d : Candidate} (hav : c.available = d.available)
    (hsm : c.skillMatch = d.skillMatch) : tierOf c = tierOf d := by
  unfold tierOf; rw [hav, hsm]

/-- C1: CandidateRanker selection respects the six-tier hierarchy evaluated
top-down: on every non-empty candidate list the chosen candidate is a member
whose tier is minimal (it comes from the first non-empty tier); hence if at
least one available technician has skill-match at least 70% the winner has
tier 1, and the assignment built from a non-empty list (tiers 4-5 included)
never carries the universal tier-6 fallback. -/
theorem candidateRanker_tier_hierarchy (l : List Candidate)
    (fallbackId ticketId : String) (hl : l ≠ []) :
    ∃ w, selectBest l = some w ∧ w ∈ l ∧
      (∀ c ∈ l, tierOf w ≤ tierOf c) ∧
      (∀ c ∈ l, c.available = true → 70 ≤ c.skillMatch → tierOf w = 1) ∧
      assign fallbackId ticketId l =
        ⟨ticketId, w.techId, tierOf w, w.skillMatch⟩ ∧
      (assign fallbackId ticketId l).tier ≠ 6 := by
  cases hsel : selectBest l with
  | none => exact absurd (selectBest_eq_none hsel) hl
  | some w =>
    refine ⟨w, rfl, selectBest_mem hsel, ?_, ?_, ?_, ?_⟩
    · intro c hc
      exact tierOf_le_of_not_ranksBefore (selectBest_min hsel c hc)
    · intro c hc hav hsm
      have h1 : tierOf c = 1 := (tierOf_eq_one_iff c).mpr ⟨hav, hsm⟩
      have hle : tierOf w ≤ tierOf c :=
        tierOf_le_of_not_ranksBefore (selectBest_min hsel c hc)
      have := tierOf_ge_one w
      omega
    · simp [assign, hsel]
    · simp only [assign, hsel]
      have := tierOf_le_five w
      omega

/-- C1 witness: the concrete scenario of the spec — no technician is
available; Technician C (skill-match 40%, workload 0, unavailable) falls to
tier 5 and is still chosen over the universal tier-6 fallback. -/
theorem candidateRanker_tier_hierarchy_witness :
    assign "FALLBACK_QUEUE" "T1" [⟨"C", 40, false, 0⟩] =
      ⟨"T1", "C", 5, 40⟩ := by
  obtain ⟨w, hsel, -, -, -, hassign, -⟩ :=
    candidateRanker_tier_hierarchy [⟨"C", 40, false, 0⟩]
      "FALLBACK_QUEUE" "T1" (by decide)
  have hw : some w = some (⟨"C", 40, false, 0⟩ : Candidate) := by
    rw [← hsel]; decide
  rw [Option.some_inj.mp hw] at hassign
  exact hassign

/-- C2: within a selected tier candidates are ordered by workload ascending
before skill-match descending: whenever two members of the list share
availability and skill-match and one has strictly lower workload, the
higher-workload one is never the chosen candidate; in the concrete scenario
with A (workload 3) and B (workload 1), both available at 100% match, the
assignment goes to B. -/
theorem candidateRanker_workload_order (l : List Candidate)
    (c d w : Candidate) (fallbackId ticketId : String)
    (hw : selectBest l = some w) (hc : c ∈ l) (hd : d ∈ l)
    (hav : c.available = d.available) (hsm : c.skillMatch = d.skillMatch)
    (hwl : c.workload < d.workload) :
    w ≠ d ∧
      (assign fallbackId ticketId
        [⟨"A", 100, true, 3⟩, ⟨"B", 100, true, 1⟩]).technicianId = "B" := by
  constructor
  · intro hwd
    subst hwd
    have hmin : ranksBefore c w = false := selectBest_min hw c hc
    have htier : tierOf c = tierOf w := tierOf_congr hav hsm
    unfold ranksBefore at hmin
    rw [htier] at hmin
    simp at hmin
    omega
  · simp [assign, selectBest, ranksBefore, tierOf]

/-- C2 witness: instantiating the ordering theorem on the concrete A/B
scenario — B (workload 1) is the selected technician. -/
theorem candidateRanker_workload_order_witness :
    (assign "FALLBACK_QUEUE" "T2"
      [⟨"A", 100, true, 3⟩, ⟨"B", 100, true, 1⟩]).technicianId = "B" :=
  (candidateRanker_workload_order
    [⟨"A", 100, true, 3⟩, ⟨"B", 100, true, 1⟩]
    ⟨"B", 100, true, 1⟩ ⟨"A", 100, true, 3⟩ ⟨"B", 100, true, 1⟩
    "FALLBACK_QUEUE" "T2" (by decide) (by decide) (by decide)
    (by decide) (by decide) (by decide)).2

/-- C5: assign is total and covers the no-candidate input: on the empty
candidate list it returns exactly the configured tier-6 fallback decision,
and on every list it returns a decision for the given ticket whose
technician is either an actual candidate (with that candidate's tier) or
the fallback — the ticket is never left without a decision. -/
theorem assign_total_fallback (fallbackId ticketId : String)
    (l : List Candidate) :
    assign fallbackId ticketId [] =
      ⟨ticketId, fallbackId, 6, 0⟩ ∧
    (assign fallbackId ticketId l).ticketId = ticketId ∧
    ((∃ c ∈ l, (assign fallbackId ticketId l).technicianId = c.techId ∧
        (assign fallbackId ticketId l).tier = tierOf c) ∨
      ((assign fallbackId ticketId l).technicianId = fallbackId ∧
        (assign fallbackId ticketId l).tier = 6 ∧ l = [])) := by
  refine ⟨rfl, ?_, ?_⟩
  · cases hsel : selectBest l <;> simp [assign, hsel]
  · cases hsel : selectBest l with
    | none =>
      right
      exact ⟨by simp [assign, hsel], by simp [assign, hsel],
        selectBest_eq_none hsel⟩
    | some w =>
      left
      exact ⟨w, selectBest_mem hsel, by simp [assign, hsel],
        by simp [assign, hsel]⟩

/-! ### Workload counter invariants -/

theorem applyWorkloadOp_nonneg {w : String → Int} (op : WorkloadOp)
    (h : ∀ x, 0 ≤ w x) : ∀ x, 0 ≤ applyWorkloadOp w op x := by
  cases op with
  | increment id =>
    intro x
    simp only [applyWorkloadOp]
    split
    · have := h x; omega
    · exact h x
  | decrement id =>
    intro x
    simp only [applyWorkloadOp]
    split
    · exact le_max_left _ _
    · exact h x

theorem applyWorkloadOps_nonneg : ∀ (ops : List WorkloadOp)
    (w : String → Int), (∀ x, 0 ≤ w x) →
    ∀ x, 0 ≤ applyWorkloadOps w ops x := by
  intro ops
  induction ops with
  | nil => intro w h x; exact h x
  | cons op rest ih =>
    intro w h x
    exact ih (applyWorkloadOp w op) (applyWorkloadOp_nonneg op h) x

/-- C3: every technician's workload counter stays a non-negative integer
under every sequence of WorkloadTracker operations, and the sequence
increment(A); decrement(A); decrement(A) ends with
workload(A) = max(0, initial - 1), never initial - 2 — decrement clamps at
a floor of 0. -/
theorem workloadTracker_nonneg_clamp (w : String → Int)
    (ops : List WorkloadOp) (t A : String) (h : ∀ x, 0 ≤ w x) :
    0 ≤ applyWorkloadOps w ops t ∧
      applyWorkloadOps w
        [.increment A, .decrement A, .decrement A] A = max 0 (w A - 1) := by
  refine ⟨applyWorkloadOps_nonneg ops w h t, ?_⟩
  have hA := h A
  have hstep : applyWorkloadOps w
      [.increment A, .decrement A, .decrement A] A =
      max 0 (max 0 (w A + 1 - 1) - 1) := by
    simp [applyWorkloadOps, applyWorkloadOp]
  rw [hstep]
  omega

/-- C3 witness: starting from a uniform workload of 2, every counter stays
non-negative and the increment/decrement/decrement sequence on A lands on
max(0, 2 - 1) = 1. -/
theorem workloadTracker_nonneg_clamp_witness :
    0 ≤ applyWorkloadOps (fun _ => (2 : Int))
      [.increment "A", .decrement "A", .decrement "A"] "A" ∧
    applyWorkloadOps (fun _ => (2 : Int))
      [.increment "A", .decrement "A", .decrement "A"] "A" = 1 := by
  obtain ⟨h1, h2⟩ := workloadTracker_nonneg_clamp (fun _ => (2 : Int))
    [.increment "A", .decrement "A", .decrement "A"] "A" "A"
    (fun _ => by norm_num)
  exact ⟨h1, by rw [h2]; decide⟩

/-! ### refreshAll reconciliation -/

/-- C4: refreshAll is idempotent — running it twice with no intervening
ticket changes produces the same store as running it once — and after one
run every technician's stored workload equals the count of that
technician's currently-open (not Closed/Resolved/Cancelled) tickets in the
ticket store; the ticket rows themselves are untouched. -/
theorem refreshAll_idempotent_correct (s : StoreState) :
    refreshAll (refreshAll s) = refreshAll s ∧
      (∀ tr ∈ (refreshAll s).technicians,
        tr.currentWorkload = countOpenTickets s.tickets tr.email) ∧
      (refreshAll s).tickets = s.tickets := by
  refine ⟨?_, ?_, rfl⟩
  · simp only [refreshAll, List.map_map]
    rfl
  · intro tr htr
    simp only [refreshAll, List.mem_map] at htr
    obtain ⟨tr0, -, rfl⟩ := htr
    rfl

/-- C4 witness: a concrete store with one technician whose stale counter 7
is corrected to its single open ticket; a second run changes nothing. -/
theorem refreshAll_idempotent_correct_witness :
    refreshAll (refreshAll
      ⟨[⟨"a@x.com", 7⟩],
       [⟨"TKT-000001", some "a@x.com", none⟩,
        ⟨"TKT-000002", some "a@x.com", some "Closed"⟩]⟩) =
      refreshAll
      ⟨[⟨"a@x.com", 7⟩],
       [⟨"TKT-000001", some "a@x.com", none⟩,
        ⟨"TKT-000002", some "a@x.com", some "Closed"⟩]⟩ ∧
    (refreshAll
      ⟨[⟨"a@x.com", 7⟩],
       [⟨"TKT-000001", some "a@x.com", none⟩,
        ⟨"TKT-000002", some "a@x.com", some "Closed"⟩]⟩).technicians =
      [⟨"a@x.com", 1⟩] :=
  ⟨(refreshAll_idempotent_correct
      ⟨[⟨"a@x.com", 7⟩],
       [⟨"TKT-000001", some "a@x.com", none⟩,
        ⟨"TKT-000002", some "a@x.com", some "Closed"⟩]⟩).1,
   by decide⟩

/-! ### SkillMatcher properties -/

/-- C7: SkillMatcher is a pure total function into [0,100]: for every
required-skill set and declared skill set the result is at most 100 (it is
a natural number, so at least 0), and an empty required-skill set yields
the neutral default 50 rather than 0. -/
theorem skillMatcher_range_default (required declared : Finset String) :
    computeSkillMatch required declared ≤ 100 ∧
      (required = ∅ → computeSkillMatch required declared = 50) := by
  by_cases h : required = ∅
  · simp [computeSkillMatch, h]
  · refine ⟨?_, fun hc => absurd hc h⟩
    have hsub : required ∩ declared ⊆ required ∪ declared :=
      Finset.inter_subset_union
    have hcard : (required ∩ declared).card ≤ (required ∪ declared).card :=
      Finset.card_le_card hsub
    have hu : 0 < (required ∪ declared).card := by
      rw [Finset.card_pos]
      exact Finset.Nonempty.inl (Finset.nonempty_iff_ne_empty.mpr h)
    calc computeSkillMatch required declared
        = 100 * (required ∩ declared).card / (required ∪ declared).card := by
          simp [computeSkillMatch, h]
      _ ≤ 100 * (required ∪ declared).card / (required ∪ declared).card :=
          Nat.div_le_div_right (Nat.mul_le_mul_left 100 hcard)
      _ = 100 := Nat.mul_div_cancel 100 hu

/-- C7 witness: on concrete inputs — an empty required set yields the
neutral 50, and a concrete non-empty pair stays within 100. -/
theorem skillMatcher_range_default_witness :
    computeSkillMatch ∅ {"network"} = 50 ∧
      computeSkillMatch {"network", "hardware"} {"network"} ≤ 100 :=
  ⟨(skillMatcher_range_default ∅ {"network"}).2 rfl,
   (skillMatcher_range_default {"network", "hardware"} {"network"}).1⟩

/-! ### Coordinator atomicity on data unavailability -/

/-- C6: assign is atomic on data-unavailability: when the
TechnicianDirectory snapshot is unreachable the whole operation fails with
the retryable data-unavailable error and the store is returned unchanged —
no ticket row (assigned technician, status) and no workload counter is
modified. -/
theorem assign_atomic_directory_failure (fallbackId tid : String)
    (s : StoreState) :
    (processTicketAssignment none fallbackId tid s).1 =
        .error .dataUnavailable ∧
      AssignError.retryable .dataUnavailable = true ∧
      (processTicketAssignment none fallbackId tid s).2 = s ∧
      (processTicketAssignment none fallbackId tid s).2.tickets =
        s.tickets ∧
      (processTicketAssignment none fallbackId tid s).2.technicians =
        s.technicians :=
  ⟨rfl, rfl, rfl, rfl, rfl⟩

/-! ### Ticket-number round trip and fold-max bounds -/

theorem digitChar_isDigit : ∀ d, d < 10 → (digitChar d).isDigit = true := by
  decide

theorem charDigit_digitChar : ∀ d, d < 10 → charDigit (digitChar d) = d := by
  decide

theorem natChars_all_digits (n : Nat) :
    (natChars n).all Char.isDigit = true := by
  rw [natChars, List.all_eq_true]
  intro c hc
  rw [List.mem_reverse, List.mem_map] at hc
  obtain ⟨d, hd, rfl⟩ := hc
  exact digitChar_isDigit d (Nat.digits_lt_base (by norm_num) hd)

theorem foldl_digit_chars : ∀ (L : List Nat), (∀ d ∈ L, d < 10) →
    ∀ a : Nat,
    ((L.map digitChar).reverse).foldl (fun x c => 10 * x + charDigit c) a =
      a * 10 ^ L.length + Nat.ofDigits 10 L := by
  intro L
  induction L with
  | nil => intro _ a; simp [Nat.ofDigits]
  | cons d L ih =>
    intro hL a
    have hd : d < 10 := hL d (List.mem_cons_self d L)
    have hL' : ∀ x ∈ L, x < 10 :=
      fun x hx => hL x (List.mem_cons_of_mem d hx)
    simp only [List.map_cons, List.reverse_cons, List.foldl_append,
      List.foldl_cons, List.foldl_nil]
    rw [ih hL' a, charDigit_digitChar d hd, Nat.ofDigits_cons,
      List.length_cons, pow_succ]
    ring

theorem foldl_replicate_zero : ∀ k : Nat,
    (List.replicate k '0').foldl (fun x c => 10 * x + charDigit c) 0 = 0 := by
  intro k
  induction k with
  | zero => rfl
  | succ k ih =>
    rw [List.replicate_succ, List.foldl_cons]
    exact ih

theorem castDigits_pad_natChars (n : Nat) :
    castDigits
      (List.replicate (6 - (natChars n).length) '0' ++ natChars n) = n := by
  have hall : (List.replicate (6 - (natChars n).length) '0' ++
      natChars n).all Char.isDigit = true := by
    rw [List.all_append]
    refine Bool.and_eq_true_iff.mpr ⟨?_, natChars_all_digits n⟩
    rw [List.all_eq_true]
    intro c hc
    rw [List.eq_of_mem_replicate hc]
    decide
  have hne : List.replicate (6 - (natChars n).length) '0' ++
      natChars n ≠ [] := by
    intro hcon
    have hlen := congrArg List.length hcon
    simp only [List.length_append, List.length_replicate,
      List.length_nil] at hlen
    omega
  rw [castDigits, if_pos ⟨hne, hall⟩, List.foldl_append,
    foldl_replicate_zero]
  have hlt : ∀ d ∈ Nat.digits 10 n, d < 10 :=
    fun d hd => Nat.digits_lt_base (by norm_num) hd
  have := foldl_digit_chars (Nat.digits 10 n) hlt 0
  rw [natChars, this, Nat.ofDigits_digits]
  ring

theorem extractTicketNum_formatTKT (n : Nat) :
    extractTicketNum (formatTKT n) = n := by
  have h : extractTicketNum (formatTKT n) =
      castDigits
        (List.replicate (6 - (natChars n).length) '0' ++ natChars n) := rfl
  rw [h, castDigits_pad_natChars]

theorem le_foldl_extract_max : ∀ (l : List String) (a : Nat),
    a ≤ l.foldl (fun x s => max x (extractTicketNum s)) a := by
  intro l
  induction l with
  | nil => intro a; exact Nat.le_refl a
  | cons s l ih =>
    intro a
    exact le_trans (Nat.le_max_left a (extractTicketNum s))
      (ih (max a (extractTicketNum s)))

theorem extract_le_foldl_max : ∀ (l : List String) (a : Nat) (s : String),
    s ∈ l →
    extractTicketNum s ≤ l.foldl (fun x t => max x (extractTicketNum t)) a := by
  intro l
  induction l with
  | nil => intro a s hs; exact absurd hs (List.not_mem_nil s)
  | cons t l ih =>
    intro a s hs
    rcases List.mem_cons.mp hs with rfl | hmem
    · exact le_trans (Nat.le_max_right a (extractTicketNum s))
        (le_foldl_extract_max l (max a (extractTicketNum s)))
    · exact ih (max a (extractTicketNum t)) s hmem

theorem extract_le_highest {db : TicketDB} {s : String}
    (hs : s ∈ allTicketNumbers db) :
    extractTicketNum s ≤ highestTicketNumber db :=
  extract_le_foldl_max (allTicketNumbers db) 0 s hs

/-- C8: generated ticket identifiers are globally unique and monotonically
issued: in every database state the freshly generated number carries a
sequence value strictly greater than that of every ticket in both the
TICKETS and CLOSED_TICKETS tables (so it differs from all of them and is
not already present), issuing it leaves every existing identifier in
place, and a ticket issued later again receives a strictly greater
sequence number. -/
theorem ticketNumber_unique_monotone (db : TicketDB) :
    (∀ s ∈ allTicketNumbers db,
        extractTicketNum s <
          extractTicketNum (generate_ticket_number db)) ∧
      generate_ticket_number db ∉ allTicketNumbers db ∧
      (∀ s ∈ db.tickets,
        s ∈ (insertTicket db (generate_ticket_number db)).tickets) ∧
      extractTicketNum (generate_ticket_number db) <
        extractTicketNum (generate_ticket_number
          (insertTicket db (generate_ticket_number db))) := by
  have hgen : extractTicketNum (generate_ticket_number db) =
      highestTicketNumber db + 1 :=
    extractTicketNum_formatTKT (highestTicketNumber db + 1)
  have hlt : ∀ s ∈ allTicketNumbers db,
      extractTicketNum s < extractTicketNum (generate_ticket_number db) := by
    intro s hs
    rw [hgen]
    exact Nat.lt_succ_of_le (extract_le_highest hs)
  refine ⟨hlt, ?_, ?_, ?_⟩
  · intro hmem
    exact absurd rfl (Nat.ne_of_lt (hlt _ hmem))
  · intro s hs
    exact List.mem_cons_of_mem _ hs
  · have hmem : generate_ticket_number db ∈
        allTicketNumbers (insertTicket db (generate_ticket_number db)) := by
      simp [allTicketNumbers, insertTicket]
    have hle := extract_le_highest hmem
    have hgen2 : extractTicketNum (generate_ticket_number
        (insertTicket db (generate_ticket_number db))) =
        highestTicketNumber
          (insertTicket db (generate_ticket_number db)) + 1 :=
      extractTicketNum_formatTKT _
    omega

/-- C8 witness: with TKT-000007 as the only existing ticket, the next
generated number is TKT-000008 with a strictly greater sequence value, and
the number already present keeps a strictly smaller one. -/
theorem ticketNumber_unique_monotone_witness :
    extractTicketNum "TKT-000007" <
      extractTicketNum (generate_ticket_number ⟨["TKT-000007"], []⟩) ∧
      generate_ticket_number ⟨["TKT-000007"], []⟩ = "TKT-000008" := by
  constructor
  · exact (ticketNumber_unique_monotone ⟨["TKT-000007"], []⟩).1
      "TKT-000007" (by simp [allTicketNumbers])
  · have h7 : highestTicketNumber ⟨["TKT-000007"], []⟩ = 7 := by decide
    show formatTKT (highestTicketNumber ⟨["TKT-000007"], []⟩ + 1) =
      "TKT-000008"
    rw [h7]
    have hd : Nat.digits 10 8 = [8] := by
      rw [Nat.digits_def' (by norm_num : (1:Nat) < 10) (by norm_num)]
      norm_num
    rw [formatTKT, natChars, hd]
    decide

/-! ### Frontend availability threshold and API error statuses -/

/-- C9: in the technician-facing UI availability is derived, not stored:
loadTechnicians marks a technician available exactly when the parsed
workload (parseInt with a 0 default on non-numeric input) is strictly
below 5 and busy otherwise, and the per-technician Assign button is
disabled exactly when the derived status is not the string available —
equivalently, it is enabled exactly on parsed workload below 5. -/
theorem urgentTickets_availability_threshold (cw : String) :
    (deriveTechStatus cw = "available" ↔ parsedWorkload cw < 5) ∧
      (deriveTechStatus cw = "busy" ↔ ¬ parsedWorkload cw < 5) ∧
      (assignDisabled (deriveTechStatus cw) = true ↔
        deriveTechStatus cw ≠ "available") ∧
      (assignDisabled (deriveTechStatus cw) = false ↔
        parsedWorkload cw < 5) := by
  by_cases h : parsedWorkload cw < 5 <;>
    simp [deriveTechStatus, assignDisabled, h]

/-- C10: every failure of ApiService.request surfaces as an ApiError: a
timeout abort is rethrown as the 408 Request-timeout ApiError, a non-ok
HTTP response becomes an ApiError carrying that response's status (with
the detail or the HTTP fallback message), an ok response is no failure,
any other exception becomes an ApiError with status 0, and
ApiError.isNetworkError returns true exactly when the status is 0 or
408. -/
theorem apiService_error_status (st : Nat) (statusText body msg : String)
    (detail : Option String) (e : ApiError) :
    request .abortError = .error ⟨"Request timeout", 408⟩ ∧
      request (.response false st statusText detail body) =
        .error
          ⟨jsOrElse detail ("HTTP " ++ toString st ++ ": " ++ statusText),
            st⟩ ∧
      request (.response true st statusText detail body) = .ok body ∧
      request (.otherFailure msg) = .error ⟨msg, 0⟩ ∧
      (e.isNetworkError = true ↔ (e.status = 0 ∨ e.status = 408)) := by
  refine ⟨rfl, rfl, rfl, rfl, ?_⟩
  simp [ApiError.isNetworkError]

end Autotask


